import Mathlib

/-
Verification development for the expo-healthkit module.

The definitions below are a shallow embedding of the Swift manager
(ExpoHealthKitManager.swift) and module layer (ExpoHealthKitModule.swift):
the HealthKit store is modelled as an explicit state (availability flag,
workout list, quantity-sample list), machine doubles as rationals, and every
manager operation returns its result together with the list of native store
calls it issues, so that properties about which native query an operation
delegates to are stateable.
-/

/-- HealthKit quantity-type identifiers used by the module
(HKQuantityTypeIdentifier cases referenced in ExpoHealthKitManager.swift). -/
inductive HKQuantityTypeIdentifier
  | stepCount | distanceWalkingRunning | distanceCycling | distanceSwimming
  | flightsClimbed | activeEnergyBurned | basalEnergyBurned
  | height | bodyMass | bodyMassIndex | bodyFatPercentage | leanBodyMass
  | heartRate | restingHeartRate | heartRateVariabilitySDNN
  | bloodPressureSystolic | bloodPressureDiastolic | respiratoryRate
  | oxygenSaturation | bodyTemperature
  | dietaryEnergyConsumed | dietaryProtein | dietaryCarbohydrates
  | dietaryFatTotal | dietaryFiber | dietaryWater | dietaryCaffeine
  deriving DecidableEq, Repr

/-- HealthKit category-type identifiers used by the module. -/
inductive HKCategoryTypeIdentifier
  | sleepAnalysis | mindfulSession
  deriving DecidableEq, Repr

/-- Native store type handles (HKObjectType): the workout type, quantity
types and category types that parseDataType can return. -/
inductive HKObjectType
  | workoutType
  | quantityType (i : HKQuantityTypeIdentifier)
  | categoryType (i : HKCategoryTypeIdentifier)
  deriving DecidableEq, Repr

/-- Workout activity kinds (HKWorkoutActivityType cases handled by
parseActivityType / formatActivityType). -/
inductive HKWorkoutActivityType
  | running | walking | cycling | swimming | hiking | yoga
  | functionalStrengthTraining | traditionalStrengthTraining
  | elliptical | rowing | other
  deriving DecidableEq, Repr

/-- Units used by the manager (HKUnit values appearing in the Swift code). -/
inductive HKUnit
  | percent | count | countPerMinute | meter | centimeter
  | kilogram | gram | liter | kilocalorie | millimeterOfMercury
  deriving DecidableEq, Repr

/-- Conversion factor of a unit to a fixed per-dimension base unit; only
ratios of factors within one dimension are ever used, mirroring
HKQuantity.doubleValue(for:). Every factor is nonzero. -/
def unitFactor : HKUnit → ℚ
  | HKUnit.percent => 1 / 100
  | HKUnit.count => 1
  | HKUnit.countPerMinute => 1
  | HKUnit.meter => 1
  | HKUnit.centimeter => 1 / 100
  | HKUnit.kilogram => 1
  | HKUnit.gram => 1 / 1000
  | HKUnit.liter => 1
  | HKUnit.kilocalorie => 1
  | HKUnit.millimeterOfMercury => 1

/-- Error taxonomy of the manager (enum HealthKitError in
ExpoHealthKitManager.swift). -/
inductive HealthKitError
  | notAvailable
  | authorizationFailed (detail : String)
  | saveFailed (detail : String)
  | queryFailed (detail : String)
  | missingRequiredData (detail : String)
  | workoutNotFound
  deriving DecidableEq, Repr

instance {e a : Type} [DecidableEq e] [DecidableEq a] : DecidableEq (Except e a) :=
  fun x y =>
    match x, y with
    | Except.ok v, Except.ok w =>
      if h : v = w then isTrue (by rw [h]) else isFalse (by intro hc; cases hc; exact h rfl)
    | Except.error v, Except.error w =>
      if h : v = w then isTrue (by rw [h]) else isFalse (by intro hc; cases hc; exact h rfl)
    | Except.ok _, Except.error _ => isFalse (by intro hc; cases hc)
    | Except.error _, Except.ok _ => isFalse (by intro hc; cases hc)

/-- A native call issued against the HealthKit store, recording which kind
of request (authorization, save, sample query, statistics query, delete)
the manager executes. -/
inductive NativeCall
  | authorize (toShare : List HKObjectType) (read : List HKObjectType)
  | saveCall
  | sampleQuery (sampleType : HKObjectType)
  | statisticsQuery (ident : HKQuantityTypeIdentifier)
  | deleteCall
  deriving DecidableEq, Repr

/-- A persisted quantity sample (HKQuantitySample): identifier of its
quantity type, stored value together with the unit it was created with,
and its start/end dates as epoch seconds. -/
structure QSample where
  ident : HKQuantityTypeIdentifier
  value : ℚ
  unit : HKUnit
  startDate : ℚ
  endDate : ℚ
  deriving DecidableEq, Repr

/-- A persisted workout (HKWorkout). totalDistance and totalEnergyBurned
are optional in the store. -/
structure WorkoutRec where
  uuid : String
  activityType : HKWorkoutActivityType
  startDate : ℚ
  endDate : ℚ
  duration : ℚ
  totalDistance : Option ℚ
  totalEnergyBurned : Option ℚ
  deriving DecidableEq, Repr

/-- The dictionary record queryWorkouts returns for one workout. -/
structure WorkoutOutput where
  id : String
  activityType : String
  startDate : ℚ
  endDate : ℚ
  duration : ℚ
  distance : ℚ
  calories : ℚ
  deriving DecidableEq, Repr

/-- The HealthKit store state: the availability probe
(HKHealthStore.isHealthDataAvailable) and the persisted records. -/
structure HKStore where
  available : Bool
  workouts : List WorkoutRec
  qsamples : List QSample
  deriving DecidableEq, Repr

/-- Input dictionary of saveWorkout; each field is present or absent,
mirroring the optional casts of data["..."] as? Double / String. -/
structure WorkoutInput where
  startDate : Option ℚ
  endDate : Option ℚ
  duration : Option ℚ
  distance : Option ℚ
  calories : Option ℚ
  activityType : Option String
  deriving DecidableEq, Repr

/-- The options dictionary accepted by the module-level queryWorkouts. -/
structure QueryOptions where
  startDate : Option ℚ
  endDate : Option ℚ
  limit : Option Nat
  deriving DecidableEq, Repr

/-- ASCII lowercasing of one character, as Swift lowercased() acts on the
ASCII identifier strings this module receives. -/
def toLowerChar (c : Char) : Char :=
  if 'A' ≤ c ∧ c ≤ 'Z' then Char.ofNat (c.toNat + 32) else c

/-- ASCII lowercasing of a string (Swift String.lowercased()). -/
def lowercased (s : String) : String :=
  String.mk (s.toList.map toLowerChar)

/-- ASCII uppercasing of one character. -/
def toUpperChar (c : Char) : Char :=
  if 'a' ≤ c ∧ c ≤ 'z' then Char.ofNat (c.toNat - 32) else c

/-- ASCII uppercasing of a string: the canonical form of a uuid string,
used to model the case-insensitive uuid matching of UUID(uuidString:) and
the uppercase uuidString HealthKit assigns. -/
def uppercased (s : String) : String :=
  String.mk (s.toList.map toUpperChar)

/-- Body of parseDataType after lowercasing: the switch over the lowercased
identifier string in ExpoHealthKitManager.swift. -/
def parseDataTypeCore (t : String) : Option HKObjectType :=
  if t = "workout" then some HKObjectType.workoutType
  else if t = "steps" ∨ t = "stepcount" then
    some (HKObjectType.quantityType HKQuantityTypeIdentifier.stepCount)
  else if t = "distance" ∨ t = "distancewalkingrunning" then
    some (HKObjectType.quantityType HKQuantityTypeIdentifier.distanceWalkingRunning)
  else if t = "distancecycling" then
    some (HKObjectType.quantityType HKQuantityTypeIdentifier.distanceCycling)
  else if t = "distanceswimming" then
    some (HKObjectType.quantityType HKQuantityTypeIdentifier.distanceSwimming)
  else if t = "flightsclimbed" then
    some (HKObjectType.quantityType HKQuantityTypeIdentifier.flightsClimbed)
  else if t = "activeenergy" ∨ t = "calories" ∨ t = "activeenergyburned" then
    some (HKObjectType.quantityType HKQuantityTypeIdentifier.activeEnergyBurned)
  else if t = "basalenergy" ∨ t = "basalenergyburned" then
    some (HKObjectType.quantityType HKQuantityTypeIdentifier.basalEnergyBurned)
  else if t = "height" ∨ t = "bodyheight" then
    some (HKObjectType.quantityType HKQuantityTypeIdentifier.height)
  else if t = "weight" ∨ t = "bodymass" ∨ t = "bodyweight" then
    some (HKObjectType.quantityType HKQuantityTypeIdentifier.bodyMass)
  else if t = "bodymassindex" ∨ t = "bmi" then
    some (HKObjectType.quantityType HKQuantityTypeIdentifier.bodyMassIndex)
  else if t = "bodyfat" ∨ t = "bodyfatpercentage" then
    some (HKObjectType.quantityType HKQuantityTypeIdentifier.bodyFatPercentage)
  else if t = "leanmass" ∨ t = "leanbodymass" then
    some (HKObjectType.quantityType HKQuantityTypeIdentifier.leanBodyMass)
  else if t = "heartrate" then
    some (HKObjectType.quantityType HKQuantityTypeIdentifier.heartRate)
  else if t = "restingheartrate" then
    some (HKObjectType.quantityType HKQuantityTypeIdentifier.restingHeartRate)
  else if t = "heartratevariability" ∨ t = "hrv" then
    some (HKObjectType.quantityType HKQuantityTypeIdentifier.heartRateVariabilitySDNN)
  else if t = "bloodpressuresystolic" then
    some (HKObjectType.quantityType HKQuantityTypeIdentifier.bloodPressureSystolic)
  else if t = "bloodpressurediastolic" then
    some (HKObjectType.quantityType HKQuantityTypeIdentifier.bloodPressureDiastolic)
  else if t = "respiratoryrate" then
    some (HKObjectType.quantityType HKQuantityTypeIdentifier.respiratoryRate)
  else if t = "oxygensat" ∨ t = "oxygensaturation" ∨ t = "spo2" then
    some (HKObjectType.quantityType HKQuantityTypeIdentifier.oxygenSaturation)
  else if t = "bodytemperature" then
    some (HKObjectType.quantityType HKQuantityTypeIdentifier.bodyTemperature)
  else if t = "dietaryenergy" ∨ t = "dietarycalories" then
    some (HKObjectType.quantityType HKQuantityTypeIdentifier.dietaryEnergyConsumed)
  else if t = "protein" ∨ t = "dietaryprotein" then
    some (HKObjectType.quantityType HKQuantityTypeIdentifier.dietaryProtein)
  else if t = "carbs" ∨ t = "carbohydrates" ∨ t = "dietarycarbohydrates" then
    some (HKObjectType.quantityType HKQuantityTypeIdentifier.dietaryCarbohydrates)
  else if t = "fat" ∨ t = "dietaryfat" ∨ t = "dietaryfattotal" then
    some (HKObjectType.quantityType HKQuantityTypeIdentifier.dietaryFatTotal)
  else if t = "fiber" ∨ t = "dietaryfiber" then
    some (HKObjectType.quantityType HKQuantityTypeIdentifier.dietaryFiber)
  else if t = "water" ∨ t = "dietarywater" then
    some (HKObjectType.quantityType HKQuantityTypeIdentifier.dietaryWater)
  else if t = "caffeine" ∨ t = "dietarycaffeine" then
    some (HKObjectType.quantityType HKQuantityTypeIdentifier.dietaryCaffeine)
  else if t = "sleep" ∨ t = "sleepanalysis" then
    some (HKObjectType.categoryType HKCategoryTypeIdentifier.sleepAnalysis)
  else if t = "mindfulness" ∨ t = "mindfulminutes" then
    some (HKObjectType.categoryType HKCategoryTypeIdentifier.mindfulSession)
  else none

/-- parseDataType from ExpoHealthKitManager.swift: case-insensitive
resolution of an identifier string to a native type handle
(switch type.lowercased). -/
def parseDataType (type : String) : Option HKObjectType :=
  parseDataTypeCore (lowercased type)

/-- Alias groups of parseDataType: the identifier strings sharing one case
of the switch (already lowercased, as the switch patterns are). -/
def dataTypeAliasGroups : List (List String) :=
  [["workout"],
   ["steps", "stepcount"],
   ["distance", "distancewalkingrunning"],
   ["distancecycling"],
   ["distanceswimming"],
   ["flightsclimbed"],
   ["activeenergy", "calories", "activeenergyburned"],
   ["basalenergy", "basalenergyburned"],
   ["height", "bodyheight"],
   ["weight", "bodymass", "bodyweight"],
   ["bodymassindex", "bmi"],
   ["bodyfat", "bodyfatpercentage"],
   ["leanmass", "leanbodymass"],
   ["heartrate"],
   ["restingheartrate"],
   ["heartratevariability", "hrv"],
   ["bloodpressuresystolic"],
   ["bloodpressurediastolic"],
   ["respiratoryrate"],
   ["oxygensat", "oxygensaturation", "spo2"],
   ["bodytemperature"],
   ["dietaryenergy", "dietarycalories"],
   ["protein", "dietaryprotein"],
   ["carbs", "carbohydrates", "dietarycarbohydrates"],
   ["fat", "dietaryfat", "dietaryfattotal"],
   ["fiber", "dietaryfiber"],
   ["water", "dietarywater"],
   ["caffeine", "dietarycaffeine"],
   ["sleep", "sleepanalysis"],
   ["mindfulness", "mindfulminutes"]]

/-- Body of parseActivityType after lowercasing: the switch over the
lowercased activity string. -/
def parseActivityTypeCore (t : String) : HKWorkoutActivityType :=
  if t = "running" then HKWorkoutActivityType.running
  else if t = "walking" then HKWorkoutActivityType.walking
  else if t = "cycling" then HKWorkoutActivityType.cycling
  else if t = "swimming" then HKWorkoutActivityType.swimming
  else if t = "hiking" then HKWorkoutActivityType.hiking
  else if t = "yoga" then HKWorkoutActivityType.yoga
  else if t = "functionalstrengthtraining" then HKWorkoutActivityType.functionalStrengthTraining
  else if t = "traditionalstrengthtraining" then HKWorkoutActivityType.traditionalStrengthTraining
  else if t = "elliptical" then HKWorkoutActivityType.elliptical
  else if t = "rowing" then HKWorkoutActivityType.rowing
  else HKWorkoutActivityType.other

/-- parseActivityType from ExpoHealthKitManager.swift: case-insensitive
resolution of an activity string, defaulting to other. -/
def parseActivityType (type : String) : HKWorkoutActivityType :=
  parseActivityTypeCore (lowercased type)

/-- The lowercased activity strings recognized by parseActivityType. -/
def recognizedActivityStrings : List String :=
  ["running", "walking", "cycling", "swimming", "hiking", "yoga",
   "functionalstrengthtraining", "traditionalstrengthtraining",
   "elliptical", "rowing"]

/-- formatActivityType from ExpoHealthKitManager.swift: native activity
handle back to its canonical string. -/
def formatActivityType : HKWorkoutActivityType → String
  | HKWorkoutActivityType.running => "running"
  | HKWorkoutActivityType.walking => "walking"
  | HKWorkoutActivityType.cycling => "cycling"
  | HKWorkoutActivityType.swimming => "swimming"
  | HKWorkoutActivityType.hiking => "hiking"
  | HKWorkoutActivityType.yoga => "yoga"
  | HKWorkoutActivityType.functionalStrengthTraining => "functionalStrengthTraining"
  | HKWorkoutActivityType.traditionalStrengthTraining => "traditionalStrengthTraining"
  | HKWorkoutActivityType.elliptical => "elliptical"
  | HKWorkoutActivityType.rowing => "rowing"
  | HKWorkoutActivityType.other => "other"

/-- Insert an element into a list kept in descending key order (model of the
store applying an NSSortDescriptor with ascending false). -/
def insertDescBy {α : Type} (key : α → ℚ) (x : α) : List α → List α
  | [] => [x]
  | y :: ys => if key y ≤ key x then x :: y :: ys else y :: insertDescBy key x ys

/-- Sort a list by a rational key, descending: the semantics of the
HKSampleSortIdentifierEndDate sort descriptor with ascending false. -/
def sortDescBy {α : Type} (key : α → ℚ) : List α → List α
  | [] => []
  | x :: xs => insertDescBy key x (sortDescBy key xs)

/-- The strictStartDate range predicate of
HKQuery.predicateForSamples(withStart:end:options:.strictStartDate):
the sample start time lies in the half-open interval of the range. -/
def strictStartDateMatch (s e t : ℚ) : Bool :=
  decide (s ≤ t) && decide (t < e)

/-- HKQuantity.doubleValue(for:) on a stored sample: convert the stored
value from its creation unit into the requested unit. -/
def doubleValueFor (q : QSample) (u : HKUnit) : ℚ :=
  q.value * unitFactor q.unit / unitFactor u

/-- The store-native cumulative-sum statistics primitive
(HKStatisticsQuery with options .cumulativeSum): the store folds the
requested unit-converted value over the samples of the given quantity type
matched by the strict-start-date predicate; no matching samples yields 0
(the sumQuantity is nil and the manager coalesces it with 0). -/
def storeCumulativeSum (store : HKStore) (ident : HKQuantityTypeIdentifier)
    (s e : ℚ) (u : HKUnit) : ℚ :=
  store.qsamples.foldl
    (fun acc q =>
      if q.ident = ident ∧ strictStartDateMatch s e q.startDate = true then
        acc + doubleValueFor q u
      else acc)
    0

/-- Modelled from the spec: the client-side reduction the spec describes for
aggregate operations — a plain sum over the full set of samples returned by
a range (strict-start-date) sample query for the given quantity type. The
repository code does not contain such a reduction; this definition follows
the spec words for the refinement comparison. -/
def clientSideReductionSum (store : HKStore) (ident : HKQuantityTypeIdentifier)
    (s e : ℚ) (u : HKUnit) : ℚ :=
  ((store.qsamples.filter
      (fun q => decide (q.ident = ident) && strictStartDateMatch s e q.startDate)).map
    (fun q => doubleValueFor q u)).sum

/-- Validity check of UUID(uuidString:): 36 characters in 8-4-4-4-12 layout,
dashes at offsets 8, 13, 18 and 23, hexadecimal digits elsewhere. -/
def isUUIDChar (i : Nat) (c : Char) : Bool :=
  if i = 8 ∨ i = 13 ∨ i = 18 ∨ i = 23 then c = '-'
  else c.isDigit || ('a' ≤ c && c ≤ 'f') || ('A' ≤ c && c ≤ 'F')

/-- Whether UUID(uuidString: id) succeeds. -/
def isValidUUIDString (id : String) : Bool :=
  let cs := id.toList
  cs.length = 36 && (List.range 36).all (fun i => isUUIDChar i (cs.getD i ' '))

/-- requestAuthorization from ExpoHealthKitManager.swift: guard on store
availability, resolve both identifier lists with parseDataType dropping
unresolved entries (compactMap into a Set), then issue the native
authorization request. -/
def requestAuthorization (store : HKStore) (readTypes writeTypes : List String) :
    Except HealthKitError Unit × List NativeCall :=
  if store.available = false then
    (Except.error HealthKitError.notAvailable, [])
  else
    let readDataTypes := (readTypes.filterMap parseDataType).dedup
    let writeDataTypes := (writeTypes.filterMap parseDataType).dedup
    (Except.ok (), [NativeCall.authorize writeDataTypes readDataTypes])

/-- saveWorkout from ExpoHealthKitManager.swift: guard that the five numeric
fields are present, resolve the activity type with the "running" default for
an absent field, build the HKWorkout and save it, returning its uuid string.
The uuid the store assigns to the new workout is passed as an explicit
oracle argument. -/
def saveWorkout (store : HKStore) (data : WorkoutInput) (uuid : String) :
    Except HealthKitError (String × HKStore) × List NativeCall :=
  match data.startDate, data.endDate, data.duration, data.distance, data.calories with
  | some sd, some ed, some du, some di, some ca =>
    let activityType := parseActivityType (data.activityType.getD "running")
    let workout : WorkoutRec :=
      { uuid := uuid, activityType := activityType, startDate := sd, endDate := ed,
        duration := du, totalDistance := some di, totalEnergyBurned := some ca }
    (Except.ok (uuid, { store with workouts := store.workouts ++ [workout] }),
     [NativeCall.saveCall])
  | _, _, _, _, _ =>
    (Except.error (HealthKitError.missingRequiredData "Missing required workout data"), [])

/-- Normalization of one queried workout into the returned dictionary:
absent distance or energy coalesces to 0. -/
def workoutToOutput (w : WorkoutRec) : WorkoutOutput :=
  { id := w.uuid, activityType := formatActivityType w.activityType,
    startDate := w.startDate, endDate := w.endDate, duration := w.duration,
    distance := w.totalDistance.getD 0, calories := w.totalEnergyBurned.getD 0 }

/-- queryWorkouts from ExpoHealthKitManager.swift: sample query on the
workout type with the strict-start-date range predicate, sorted by end date
descending, with an optional limit (absent limit maps to the no-limit
sentinel, i.e. no truncation). -/
def queryWorkouts (store : HKStore) (startDate endDate : ℚ) (limit : Option Nat) :
    Except HealthKitError (List WorkoutOutput) × List NativeCall :=
  let matched := store.workouts.filter
    (fun w => strictStartDateMatch startDate endDate w.startDate)
  let sorted := sortDescBy (fun w => w.endDate) matched
  let limited := match limit with
    | none => sorted
    | some n => sorted.take n
  (Except.ok (limited.map workoutToOutput), [NativeCall.sampleQuery HKObjectType.workoutType])

/-- getTotalDistance from ExpoHealthKitManager.swift: a statistics query
(cumulativeSum) on distanceWalkingRunning over the range, result read in
meters, nil sum coalesced to 0. -/
def getTotalDistance (store : HKStore) (startDate endDate : ℚ) :
    Except HealthKitError ℚ × List NativeCall :=
  (Except.ok (storeCumulativeSum store HKQuantityTypeIdentifier.distanceWalkingRunning
      startDate endDate HKUnit.meter),
   [NativeCall.statisticsQuery HKQuantityTypeIdentifier.distanceWalkingRunning])

/-- getTotalCalories from ExpoHealthKitManager.swift: a statistics query
(cumulativeSum) on activeEnergyBurned over the range, result read in
kilocalories, nil sum coalesced to 0. -/
def getTotalCalories (store : HKStore) (startDate endDate : ℚ) :
    Except HealthKitError ℚ × List NativeCall :=
  (Except.ok (storeCumulativeSum store HKQuantityTypeIdentifier.activeEnergyBurned
      startDate endDate HKUnit.kilocalorie),
   [NativeCall.statisticsQuery HKQuantityTypeIdentifier.activeEnergyBurned])

/-- deleteWorkout from ExpoHealthKitManager.swift: reject an id that is not
a well-formed uuid string with missingRequiredData, then run a sample query
for the object with that uuid; no match is workoutNotFound, a match is
deleted from the store. Uuid matching is case-insensitive as for
UUID(uuidString:). -/
def deleteWorkout (store : HKStore) (id : String) :
    Except HealthKitError HKStore × List NativeCall :=
  if isValidUUIDString id = false then
    (Except.error (HealthKitError.missingRequiredData "Invalid workout ID"), [])
  else
    let matched := store.workouts.filter (fun w => decide (uppercased w.uuid = uppercased id))
    match matched.head? with
    | none =>
      (Except.error HealthKitError.workoutNotFound,
       [NativeCall.sampleQuery HKObjectType.workoutType])
    | some _ =>
      (Except.ok { store with
          workouts := store.workouts.filter
            (fun w => decide (¬ uppercased w.uuid = uppercased id)) },
       [NativeCall.sampleQuery HKObjectType.workoutType, NativeCall.deleteCall])

/-- getQuantitySum helper from ExpoHealthKitManager.swift: a cumulativeSum
statistics query for the given quantity type over the range. -/
def getQuantitySum (store : HKStore) (ident : HKQuantityTypeIdentifier)
    (startDate endDate : ℚ) (u : HKUnit) : Except HealthKitError ℚ × List NativeCall :=
  (Except.ok (storeCumulativeSum store ident startDate endDate u),
   [NativeCall.statisticsQuery ident])

/-- getLatestQuantity helper from ExpoHealthKitManager.swift: a sample query
with nil predicate, limit 1, sorted by end date descending; the first sample
value read in the requested unit, or none when the store holds no sample of
that type. -/
def getLatestQuantity (store : HKStore) (ident : HKQuantityTypeIdentifier) (u : HKUnit) :
    Except HealthKitError (Option ℚ) × List NativeCall :=
  let l := store.qsamples.filter (fun q => decide (q.ident = ident))
  let sorted := sortDescBy (fun q => q.endDate) l
  match sorted.head? with
  | none => (Except.ok none, [NativeCall.sampleQuery (HKObjectType.quantityType ident)])
  | some q =>
    (Except.ok (some (doubleValueFor q u)),
     [NativeCall.sampleQuery (HKObjectType.quantityType ident)])

/-- saveQuantitySample helper from ExpoHealthKitManager.swift: build an
HKQuantitySample with equal start and end dates and save it. -/
def saveQuantitySample (store : HKStore) (ident : HKQuantityTypeIdentifier)
    (value : ℚ) (u : HKUnit) (date : ℚ) : Except HealthKitError HKStore × List NativeCall :=
  (Except.ok { store with
      qsamples := store.qsamples ++
        [{ ident := ident, value := value, unit := u, startDate := date, endDate := date }] },
   [NativeCall.saveCall])

/-- getSteps: cumulative sum of stepCount in the count unit. -/
def getSteps (store : HKStore) (startDate endDate : ℚ) :
    Except HealthKitError ℚ × List NativeCall :=
  getQuantitySum store HKQuantityTypeIdentifier.stepCount startDate endDate HKUnit.count

/-- saveBodyFat: the input percentage is divided by 100 before being stored
with the percent unit. -/
def saveBodyFat (store : HKStore) (value : ℚ) (date : ℚ) :
    Except HealthKitError HKStore × List NativeCall :=
  saveQuantitySample store HKQuantityTypeIdentifier.bodyFatPercentage (value / 100)
    HKUnit.percent date

/-- getLatestBodyFat: read the latest bodyFatPercentage sample in the
percent unit and multiply by 100; none when no sample exists. -/
def getLatestBodyFat (store : HKStore) :
    Except HealthKitError (Option ℚ) × List NativeCall :=
  match getLatestQuantity store HKQuantityTypeIdentifier.bodyFatPercentage HKUnit.percent with
  | (Except.ok (some v), calls) => (Except.ok (some (v * 100)), calls)
  | (Except.ok none, calls) => (Except.ok none, calls)
  | (Except.error e, calls) => (Except.error e, calls)

/-- getRestingHeartRate from ExpoHealthKitManager.swift: despite receiving a
date range, it forwards nothing of it and returns the latest
restingHeartRate sample in beats per minute. -/
def getRestingHeartRate (store : HKStore) (startDate endDate : ℚ) :
    Except HealthKitError (Option ℚ) × List NativeCall :=
  getLatestQuantity store HKQuantityTypeIdentifier.restingHeartRate HKUnit.countPerMinute

/-- Raw value of HKCategoryValueSleepAnalysis.inBed. -/
def inBedRaw : Int := 0

/-- Raw value of HKCategoryValueSleepAnalysis.asleep (the legacy
three-stage scheme's asleep case). -/
def asleepRaw : Int := 1

/-- Raw value of HKCategoryValueSleepAnalysis.awake. -/
def awakeRaw : Int := 2

/-- Raw value of HKCategoryValueSleepAnalysis.asleepCore. -/
def asleepCoreRaw : Int := 3

/-- Raw value of HKCategoryValueSleepAnalysis.asleepDeep. -/
def asleepDeepRaw : Int := 4

/-- Raw value of HKCategoryValueSleepAnalysis.asleepREM. -/
def asleepREMRaw : Int := 5

/-- Sleep-stage normalization of getSleepSamples on the legacy (pre-iOS-16)
branch: only the three coarse stages are recognized, everything else is
unknown. -/
def sleepStateLegacy (v : Int) : String :=
  if v = asleepRaw then "asleep"
  else if v = awakeRaw then "awake"
  else if v = inBedRaw then "inBed"
  else "unknown"

/-- Sleep-stage normalization of getSleepSamples on the five-stage
(iOS 16 and later) branch: core, deep and rem are recognized, the default
case is asleep. -/
def sleepStateModern (v : Int) : String :=
  if v = asleepCoreRaw then "core"
  else if v = asleepDeepRaw then "deep"
  else if v = asleepREMRaw then "rem"
  else if v = awakeRaw then "awake"
  else if v = inBedRaw then "inBed"
  else "asleep"

/-- Option resolution of the module-level queryWorkouts
(ExpoHealthKitModule.swift): an absent startDate defaults to epoch 0, an
absent endDate defaults to the current time. -/
def resolveQueryRange (now : ℚ) (options : QueryOptions) : ℚ × ℚ :=
  (options.startDate.getD 0, options.endDate.getD now)

/-- The module-level queryWorkouts entry point: resolve the option defaults
and forward to the manager's queryWorkouts. -/
def moduleQueryWorkouts (store : HKStore) (now : ℚ) (options : QueryOptions) :
    Except HealthKitError (List WorkoutOutput) × List NativeCall :=
  queryWorkouts store (resolveQueryRange now options).1 (resolveQueryRange now options).2
    options.limit

/-- The property the spec asserts of the aggregate operations, stated on a
native call trace: the operation ran a range sample query and delegated to
no store statistics query. -/
def usesClientSideReduction (calls : List NativeCall) : Prop :=
  (∃ t, NativeCall.sampleQuery t ∈ calls) ∧
  ∀ i, NativeCall.statisticsQuery i ∉ calls

/-- An empty, available store. -/
def storeEmptyAvailable : HKStore :=
  { available := true, workouts := [], qsamples := [] }

/-- An empty store whose availability probe reports false. -/
def storeEmptyUnavailable : HKStore :=
  { available := false, workouts := [], qsamples := [] }

/-- A fully populated workout input used for concrete evaluations. -/
def workoutInputSample : WorkoutInput :=
  { startDate := some 1000, endDate := some 4600, duration := some 3600,
    distance := some 5000, calories := some 350, activityType := some "running" }

/-- A syntactically valid uuid string used for concrete evaluations. -/
def uuidSample : String := "00000000-0000-4000-8000-000000000001"

/-- An available store holding two restingHeartRate samples and one
heartRate sample, used for concrete evaluations. -/
def storeRestingSample : HKStore :=
  { available := true, workouts := [],
    qsamples :=
      [{ ident := HKQuantityTypeIdentifier.restingHeartRate, value := 55,
         unit := HKUnit.countPerMinute, startDate := 10, endDate := 20 },
       { ident := HKQuantityTypeIdentifier.heartRate, value := 130,
         unit := HKUnit.countPerMinute, startDate := 30, endDate := 40 },
       { ident := HKQuantityTypeIdentifier.restingHeartRate, value := 60,
         unit := HKUnit.countPerMinute, startDate := 50, endDate := 60 }] }

theorem mem_insertDescBy {α : Type} (key : α → ℚ) (x a : α) (l : List α) :
    a ∈ insertDescBy key x l ↔ a = x ∨ a ∈ l := by
  induction l with
  | nil => simp [insertDescBy]
  | cons y ys ih =>
    simp only [insertDescBy]
    split
    · simp [List.mem_cons]
    · simp only [List.mem_cons, ih]
      tauto

theorem mem_sortDescBy {α : Type} (key : α → ℚ) (l : List α) (a : α) :
    a ∈ sortDescBy key l ↔ a ∈ l := by
  induction l with
  | nil => simp [sortDescBy]
  | cons x xs ih => simp [sortDescBy, mem_insertDescBy, ih]

theorem sortDescBy_eq_nil {α : Type} (key : α → ℚ) (l : List α)
    (h : sortDescBy key l = []) : l = [] := by
  cases l with
  | nil => rfl
  | cons x xs =>
    exfalso
    have hx : x ∈ sortDescBy key (x :: xs) := (mem_sortDescBy key (x :: xs) x).2 (by simp)
    rw [h] at hx
    simp at hx

theorem head_sortDescBy_max {α : Type} (key : α → ℚ) (l : List α) (m : α) (rest : List α)
    (h : sortDescBy key l = m :: rest) : m ∈ l ∧ ∀ a ∈ l, key a ≤ key m := by
  induction l generalizing m rest with
  | nil => simp [sortDescBy] at h
  | cons x xs ih =>
    simp only [sortDescBy] at h
    cases hs : sortDescBy key xs with
    | nil =>
      rw [hs] at h
      simp only [insertDescBy] at h
      have hxs : xs = [] := sortDescBy_eq_nil key xs hs
      cases h
      subst hxs
      simp
    | cons y ys =>
      rw [hs] at h
      have hmax := ih y ys hs
      simp only [insertDescBy] at h
      split at h
      · rename_i hk
        cases h
        constructor
        · simp
        · intro a ha
          rcases List.mem_cons.1 ha with rfl | ha
          · exact le_refl _
          · exact le_trans (hmax.2 a ha) hk
      · rename_i hk
        cases h
        constructor
        · exact List.mem_cons_of_mem x hmax.1
        · intro a ha
          rcases List.mem_cons.1 ha with rfl | ha
          · exact le_of_lt (lt_of_not_le hk)
          · exact hmax.2 a ha

theorem head?_sortDescBy_max {α : Type} (key : α → ℚ) (l : List α) (m : α)
    (h : (sortDescBy key l).head? = some m) : m ∈ l ∧ ∀ a ∈ l, key a ≤ key m := by
  cases hs : sortDescBy key l with
  | nil => rw [hs] at h; cases h
  | cons b bs =>
    rw [hs] at h
    simp only [List.head?_cons, Option.some.injEq] at h
    subst h
    exact head_sortDescBy_max key l b bs hs

theorem filterMap_filter_isSome {α β : Type} (f : α → Option β) (l : List α) :
    l.filterMap f = (l.filter (fun a => (f a).isSome)).filterMap f := by
  induction l with
  | nil => rfl
  | cons x xs ih =>
    cases hfx : f x with
    | none => simp [List.filterMap_cons, List.filter_cons, hfx, ih]
    | some b => simp [List.filterMap_cons, List.filter_cons, hfx, ih]

theorem getLatestQuantity_spec (store : HKStore) (ident : HKQuantityTypeIdentifier)
    (u : HKUnit) :
    (store.qsamples.filter (fun q => decide (q.ident = ident)) = [] →
      (getLatestQuantity store ident u).1 = Except.ok none) ∧
    (store.qsamples.filter (fun q => decide (q.ident = ident)) ≠ [] →
      ∃ q ∈ store.qsamples.filter (fun q => decide (q.ident = ident)),
        (getLatestQuantity store ident u).1 = Except.ok (some (doubleValueFor q u)) ∧
        ∀ x ∈ store.qsamples.filter (fun q => decide (q.ident = ident)),
          x.endDate ≤ q.endDate) := by
  constructor
  · intro h
    simp only [getLatestQuantity, h, sortDescBy]
    rfl
  · intro h
    simp only [getLatestQuantity]
    cases hh : (sortDescBy (fun q => q.endDate)
        (store.qsamples.filter (fun q => decide (q.ident = ident)))).head? with
    | none =>
      exfalso
      have hnil := List.head?_eq_none_iff.1 hh
      exact h (sortDescBy_eq_nil _ _ hnil)
    | some q =>
      obtain ⟨hq, hmax⟩ := head?_sortDescBy_max _ _ _ hh
      exact ⟨q, hq, by simp only [hh], hmax⟩

/-- C5: for every alias group of the data-type switch and every case variant
of each alias in the group, parseDataType resolves them all to the same
native type handle, which exists. -/
theorem parseDataType_alias_groups (g : List String) (hg : g ∈ dataTypeAliasGroups)
    (a b : String) (ha : a ∈ g) (hb : b ∈ g) (s t : String)
    (hs : lowercased s = a) (ht : lowercased t = b) :
    parseDataType s = parseDataType t ∧ (parseDataType s).isSome = true := by
  have key : ∀ g ∈ dataTypeAliasGroups, ∀ a ∈ g, ∀ b ∈ g,
      parseDataTypeCore a = parseDataTypeCore b ∧ (parseDataTypeCore a).isSome = true := by
    decide
  have h1 : parseDataType s = parseDataTypeCore a := by
    unfold parseDataType
    rw [hs]
  have h2 : parseDataType t = parseDataTypeCore b := by
    unfold parseDataType
    rw [ht]
  obtain ⟨hab, hsome⟩ := key g hg a ha b hb
  constructor
  · rw [h1, h2, hab]
  · rw [h1]
    exact hsome

theorem parseDataType_alias_groups_witness :
    (["activeenergy", "calories", "activeenergyburned"] ∈ dataTypeAliasGroups ∧
     "calories" ∈ (["activeenergy", "calories", "activeenergyburned"] : List String) ∧
     "activeenergyburned" ∈ (["activeenergy", "calories", "activeenergyburned"] : List String) ∧
     lowercased "Calories" = "calories" ∧
     lowercased "ActiveEnergyBurned" = "activeenergyburned") ∧
    parseDataType "Calories" = parseDataType "ActiveEnergyBurned" ∧
    (parseDataType "Calories").isSome = true :=
  ⟨⟨by decide, by decide, by decide, by decide, by decide⟩,
   parseDataType_alias_groups ["activeenergy", "calories", "activeenergyburned"]
     (by decide) "calories" "activeenergyburned" (by decide) (by decide)
     "Calories" "ActiveEnergyBurned" (by decide) (by decide)⟩

/-- C6: the legacy three-stage sleep normalization branch never yields the
core, deep or rem tag, while the five-stage branch does produce each of
them. -/
theorem sleepStateLegacy_never_fiveStage (v : Int) :
    sleepStateLegacy v ≠ "core" ∧ sleepStateLegacy v ≠ "deep" ∧
    sleepStateLegacy v ≠ "rem" ∧
    sleepStateModern asleepCoreRaw = "core" ∧
    sleepStateModern asleepDeepRaw = "deep" ∧
    sleepStateModern asleepREMRaw = "rem" := by
  refine ⟨?_, ?_, ?_, by decide, by decide, by decide⟩ <;>
    (unfold sleepStateLegacy; split_ifs <;> decide)

/-- C7: an activity string whose lowercasing is outside the recognized set
resolves to the other activity, and saveWorkout resolves an absent
activityType field to running. -/
theorem parseActivityType_defaults (s : String)
    (h : lowercased s ∉ recognizedActivityStrings) :
    parseActivityType s = HKWorkoutActivityType.other ∧
    parseActivityType ((none : Option String).getD "running") =
      HKWorkoutActivityType.running ∧
    ∀ (store : HKStore) (u : String) (sd ed du di ca : ℚ),
      (saveWorkout store
        { startDate := some sd, endDate := some ed, duration := some du,
          distance := some di, calories := some ca, activityType := none } u).1 =
      Except.ok (u, { store with workouts := store.workouts ++
        [{ uuid := u, activityType := HKWorkoutActivityType.running, startDate := sd,
           endDate := ed, duration := du, totalDistance := some di,
           totalEnergyBurned := some ca }] }) := by
  refine ⟨?_, by decide, ?_⟩
  · simp only [recognizedActivityStrings, List.mem_cons, not_or, List.not_mem_nil,
      not_false_iff, and_true] at h
    obtain ⟨h1, h2, h3, h4, h5, h6, h7, h8, h9, h10⟩ := h
    unfold parseActivityType parseActivityTypeCore
    simp [h1, h2, h3, h4, h5, h6, h7, h8, h9, h10]
  · intro store u sd ed du di ca
    rfl

theorem parseActivityType_defaults_witness :
    lowercased "Zumba" ∉ recognizedActivityStrings ∧
    parseActivityType "Zumba" = HKWorkoutActivityType.other :=
  ⟨by decide, (parseActivityType_defaults "Zumba" (by decide)).1⟩

/-- C8: requestAuthorization on an available store succeeds, with both
authorization sets built by resolving the identifier lists and silently
dropping every identifier that parseDataType cannot resolve; dropping the
unresolved identifiers beforehand changes neither set. -/
theorem requestAuthorization_drops_unresolved (store : HKStore)
    (rs ws : List String) :
    requestAuthorization { store with available := true } rs ws =
      (Except.ok (), [NativeCall.authorize ((ws.filterMap parseDataType).dedup)
        ((rs.filterMap parseDataType).dedup)]) ∧
    rs.filterMap parseDataType =
      (rs.filter (fun i => (parseDataType i).isSome)).filterMap parseDataType ∧
    ws.filterMap parseDataType =
      (ws.filter (fun i => (parseDataType i).isSome)).filterMap parseDataType :=
  ⟨rfl, filterMap_filter_isSome _ _, filterMap_filter_isSome _ _⟩

/-- C10: the module-level queryWorkouts defaults an absent startDate to
epoch 0 and an absent endDate to the current time, so empty options query
from the epoch up to now. -/
theorem moduleQueryWorkouts_defaults (store : HKStore) (now sd ed : ℚ)
    (lim : Option Nat) :
    resolveQueryRange now { startDate := none, endDate := none, limit := lim } =
      (0, now) ∧
    resolveQueryRange now { startDate := some sd, endDate := none, limit := lim } =
      (sd, now) ∧
    resolveQueryRange now { startDate := none, endDate := some ed, limit := lim } =
      (0, ed) ∧
    moduleQueryWorkouts store now { startDate := none, endDate := none, limit := lim } =
      queryWorkouts store 0 now lim :=
  ⟨rfl, rfl, rfl, rfl⟩

/-- C9: getRestingHeartRate ignores both of its date-range arguments: for a
fixed store the result is the same for any two ranges, and it equals the
single most recent restingHeartRate sample in the entire store (none when
the store has no such sample). -/
theorem getRestingHeartRate_ignores_range (store : HKStore) (s1 e1 s2 e2 : ℚ) :
    getRestingHeartRate store s1 e1 = getRestingHeartRate store s2 e2 ∧
    (store.qsamples.filter
        (fun q => decide (q.ident = HKQuantityTypeIdentifier.restingHeartRate)) = [] →
      (getRestingHeartRate store s1 e1).1 = Except.ok none) ∧
    (store.qsamples.filter
        (fun q => decide (q.ident = HKQuantityTypeIdentifier.restingHeartRate)) ≠ [] →
      ∃ q ∈ store.qsamples.filter
          (fun q => decide (q.ident = HKQuantityTypeIdentifier.restingHeartRate)),
        (getRestingHeartRate store s1 e1).1 =
          Except.ok (some (doubleValueFor q HKUnit.countPerMinute)) ∧
        ∀ x ∈ store.qsamples.filter
            (fun q => decide (q.ident = HKQuantityTypeIdentifier.restingHeartRate)),
          x.endDate ≤ q.endDate) := by
  refine ⟨rfl, ?_, ?_⟩
  · intro h
    exact (getLatestQuantity_spec store HKQuantityTypeIdentifier.restingHeartRate
      HKUnit.countPerMinute).1 h
  · intro h
    exact (getLatestQuantity_spec store HKQuantityTypeIdentifier.restingHeartRate
      HKUnit.countPerMinute).2 h

theorem getRestingHeartRate_ignores_range_witness :
    getRestingHeartRate storeRestingSample 0 1 = getRestingHeartRate storeRestingSample 50 900 ∧
    storeRestingSample.qsamples.filter
      (fun q => decide (q.ident = HKQuantityTypeIdentifier.restingHeartRate)) ≠ [] ∧
    ∃ q ∈ storeRestingSample.qsamples.filter
        (fun q => decide (q.ident = HKQuantityTypeIdentifier.restingHeartRate)),
      (getRestingHeartRate storeRestingSample 0 1).1 =
        Except.ok (some (doubleValueFor q HKUnit.countPerMinute)) ∧
      ∀ x ∈ storeRestingSample.qsamples.filter
          (fun q => decide (q.ident = HKQuantityTypeIdentifier.restingHeartRate)),
        x.endDate ≤ q.endDate :=
  ⟨(getRestingHeartRate_ignores_range storeRestingSample 0 1 50 900).1,
   by decide,
   (getRestingHeartRate_ignores_range storeRestingSample 0 1 50 900).2.2 (by decide)⟩

/-- C3: for a body-fat percentage v in the range 0 to 100, saving it (which
divides by 100) and reading it back with getLatestBodyFat (which multiplies
by 100) returns v to within 1e-6, under the assumption that the read
returns the sample just written (no already-stored bodyFatPercentage sample
has a later end date). -/
theorem saveBodyFat_roundTrip (store : HKStore) (v date : ℚ)
    (h0 : 0 ≤ v) (h1 : v ≤ 100)
    (hfresh : ∀ q ∈ store.qsamples,
      q.ident = HKQuantityTypeIdentifier.bodyFatPercentage → q.endDate < date) :
    ∃ store', (saveBodyFat store v date).1 = Except.ok store' ∧
      ∃ r, (getLatestBodyFat store').1 = Except.ok (some r) ∧ |r - v| ≤ 1 / 1000000 := by
  set newSample : QSample :=
    { ident := HKQuantityTypeIdentifier.bodyFatPercentage, value := v / 100,
      unit := HKUnit.percent, startDate := date, endDate := date } with hnew
  set store' : HKStore := { store with qsamples := store.qsamples ++ [newSample] }
    with hstore
  refine ⟨store', rfl, ?_⟩
  have hfilter : store'.qsamples.filter
      (fun q => decide (q.ident = HKQuantityTypeIdentifier.bodyFatPercentage)) =
      store.qsamples.filter
        (fun q => decide (q.ident = HKQuantityTypeIdentifier.bodyFatPercentage)) ++
        [newSample] := by
    simp [hstore, List.filter_append, hnew]
  have hne : store'.qsamples.filter
      (fun q => decide (q.ident = HKQuantityTypeIdentifier.bodyFatPercentage)) ≠ [] := by
    rw [hfilter]
    simp
  obtain ⟨q, hq, hres, hmax⟩ := (getLatestQuantity_spec store'
    HKQuantityTypeIdentifier.bodyFatPercentage HKUnit.percent).2 hne
  have hqnew : q = newSample := by
    rw [hfilter] at hq
    rcases List.mem_append.1 hq with hqo | hqn
    · exfalso
      have hmem := List.mem_filter.1 hqo
      have hident : q.ident = HKQuantityTypeIdentifier.bodyFatPercentage :=
        of_decide_eq_true hmem.2
      have hlt := hfresh q hmem.1 hident
      have hge : newSample.endDate ≤ q.endDate := by
        apply hmax
        rw [hfilter]
        simp
      rw [hnew] at hge
      exact absurd hlt (not_lt.2 hge)
    · simpa using hqn
  have hdv : doubleValueFor newSample HKUnit.percent = v / 100 := by
    rw [hnew]
    show v / 100 * unitFactor HKUnit.percent / unitFactor HKUnit.percent = v / 100
    rw [mul_div_cancel_right₀]
    simp [unitFactor]
  refine ⟨v, ?_, by simp⟩
  cases hpair : getLatestQuantity store' HKQuantityTypeIdentifier.bodyFatPercentage
      HKUnit.percent with
  | mk res calls =>
    rw [hpair] at hres
    simp only at hres
    subst hqnew
    rw [hdv] at hres
    unfold getLatestBodyFat
    rw [hpair, hres]
    simp only
    rw [div_mul_cancel₀]
    norm_num

theorem saveBodyFat_roundTrip_witness :
    ((0 : ℚ) ≤ 15.2 ∧ (15.2 : ℚ) ≤ 100) ∧
    ∃ store', (saveBodyFat storeEmptyAvailable 15.2 0).1 = Except.ok store' ∧
      ∃ r, (getLatestBodyFat store').1 = Except.ok (some r) ∧ |r - 15.2| ≤ 1 / 1000000 :=
  ⟨⟨by norm_num, by norm_num⟩,
   saveBodyFat_roundTrip storeEmptyAvailable 15.2 0 (by norm_num) (by norm_num)
     (by simp [storeEmptyAvailable])⟩

theorem foldl_if_add {α : Type} (p : α → Prop) [DecidablePred p] (f : α → ℚ)
    (l : List α) (acc : ℚ) :
    l.foldl (fun a q => if p q then a + f q else a) acc =
      acc + ((l.filter (fun q => decide (p q))).map f).sum := by
  induction l generalizing acc with
  | nil => simp
  | cons x xs ih =>
    simp only [List.foldl_cons, List.filter_cons]
    by_cases hp : p x
    · simp only [hp, if_true, decide_eq_true_eq, if_pos, List.map_cons, List.sum_cons, ih]
      ring
    · simp only [hp, if_false, decide_eq_true_eq, if_neg, ih, not_false_iff]

theorem storeCumulativeSum_eq_clientSide (store : HKStore)
    (ident : HKQuantityTypeIdentifier) (s e : ℚ) (u : HKUnit) :
    storeCumulativeSum store ident s e u = clientSideReductionSum store ident s e u := by
  unfold storeCumulativeSum clientSideReductionSum
  rw [foldl_if_add
    (fun q => q.ident = ident ∧ strictStartDateMatch s e q.startDate = true)
    (fun q => doubleValueFor q u) store.qsamples 0]
  rw [zero_add]
  have hfc : List.filter
      (fun q => decide (q.ident = ident ∧ strictStartDateMatch s e q.startDate = true))
      store.qsamples =
      List.filter (fun q => decide (q.ident = ident) && strictStartDateMatch s e q.startDate)
        store.qsamples := by
    apply List.filter_congr
    intro q _
    by_cases h1 : q.ident = ident <;>
      by_cases h2 : strictStartDateMatch s e q.startDate = true <;>
        simp [h1, h2]
  rw [hfc]

theorem getLatestQuantity_ne_error (store : HKStore) (ident : HKQuantityTypeIdentifier)
    (u : HKUnit) (e : HealthKitError) (calls : List NativeCall) :
    getLatestQuantity store ident u ≠ (Except.error e, calls) := by
  simp only [getLatestQuantity]
  split <;> simp

theorem getLatestBodyFat_isOk (store : HKStore) :
    ∃ o calls, getLatestBodyFat store = (Except.ok o, calls) := by
  unfold getLatestBodyFat
  rcases hq : getLatestQuantity store HKQuantityTypeIdentifier.bodyFatPercentage
      HKUnit.percent with ⟨res, calls⟩
  cases res with
  | ok o => cases o <;> simp
  | error e => exact absurd hq (getLatestQuantity_ne_error _ _ _ _ _)

/-- C1 counterexample: at the concrete range 0 to 100 on the empty store,
getTotalDistance delegates to a store statistics query, so it is not
computed as a client-side reduction over a range sample query. -/
theorem getTotalDistance_not_clientSideReduction :
    ¬ usesClientSideReduction (getTotalDistance storeEmptyAvailable 0 100).2 := by
  intro h
  exact h.2 HKQuantityTypeIdentifier.distanceWalkingRunning (by simp [getTotalDistance])

/-- C1 amended: getTotalDistance and getTotalCalories delegate to the
store's native cumulative-sum statistics query (one statistics query, no
sample query); the value they return is the store's cumulative sum over the
range, which coincides with the plain sum over the samples a range query
would return. -/
theorem getTotals_delegate_native_aggregation (store : HKStore) (s e : ℚ) :
    (getTotalDistance store s e).2 =
      [NativeCall.statisticsQuery HKQuantityTypeIdentifier.distanceWalkingRunning] ∧
    (getTotalCalories store s e).2 =
      [NativeCall.statisticsQuery HKQuantityTypeIdentifier.activeEnergyBurned] ∧
    (getTotalDistance store s e).1 = Except.ok (clientSideReductionSum store
      HKQuantityTypeIdentifier.distanceWalkingRunning s e HKUnit.meter) ∧
    (getTotalCalories store s e).1 = Except.ok (clientSideReductionSum store
      HKQuantityTypeIdentifier.activeEnergyBurned s e HKUnit.kilocalorie) := by
  refine ⟨rfl, rfl, ?_, ?_⟩
  · show Except.ok (storeCumulativeSum store
      HKQuantityTypeIdentifier.distanceWalkingRunning s e HKUnit.meter) = _
    rw [storeCumulativeSum_eq_clientSide]
  · show Except.ok (storeCumulativeSum store
      HKQuantityTypeIdentifier.activeEnergyBurned s e HKUnit.kilocalorie) = _
    rw [storeCumulativeSum_eq_clientSide]

/-- C2 counterexample: on a store whose availability probe reports false,
saveWorkout with a fully populated input neither fails with notAvailable
nor refrains from issuing its native save call. -/
theorem saveWorkout_unavailable_not_guarded :
    (saveWorkout storeEmptyUnavailable workoutInputSample uuidSample).1 ≠
      Except.error HealthKitError.notAvailable ∧
    (saveWorkout storeEmptyUnavailable workoutInputSample uuidSample).2 ≠ [] := by
  constructor
  · intro h
    simp [saveWorkout, workoutInputSample] at h
  · intro h
    simp [saveWorkout, workoutInputSample] at h

/-- C2 amended: only requestAuthorization guards on store availability,
failing with notAvailable and issuing no native call when the store is
unavailable; every other public operation proceeds identically whatever the
availability flag, issues its native call, and never produces the
notAvailable error. -/
theorem availability_guard_only_requestAuthorization (store : HKStore)
    (rs ws : List String) (input : WorkoutInput) (u id : String)
    (sd ed du di ca : ℚ) (act : Option String)
    (s e v d : ℚ) (lim : Option Nat) :
    requestAuthorization { store with available := false } rs ws =
      (Except.error HealthKitError.notAvailable, []) ∧
    (saveWorkout store
      { startDate := some sd, endDate := some ed, duration := some du,
        distance := some di, calories := some ca, activityType := act } u).2 =
      [NativeCall.saveCall] ∧
    (saveWorkout store input u).1 ≠ Except.error HealthKitError.notAvailable ∧
    queryWorkouts { store with available := false } s e lim =
      queryWorkouts { store with available := true } s e lim ∧
    (queryWorkouts store s e lim).2 = [NativeCall.sampleQuery HKObjectType.workoutType] ∧
    (queryWorkouts store s e lim).1 ≠ Except.error HealthKitError.notAvailable ∧
    getTotalDistance { store with available := false } s e =
      getTotalDistance { store with available := true } s e ∧
    (getTotalDistance store s e).1 ≠ Except.error HealthKitError.notAvailable ∧
    (getTotalCalories store s e).1 ≠ Except.error HealthKitError.notAvailable ∧
    (deleteWorkout store id).1 ≠ Except.error HealthKitError.notAvailable ∧
    (getSteps store s e).1 ≠ Except.error HealthKitError.notAvailable ∧
    (getRestingHeartRate store s e).1 ≠ Except.error HealthKitError.notAvailable ∧
    (saveBodyFat store v d).1 ≠ Except.error HealthKitError.notAvailable ∧
    (getLatestBodyFat store).1 ≠ Except.error HealthKitError.notAvailable := by
  refine ⟨rfl, rfl, ?_, rfl, rfl, ?_, rfl, ?_, ?_, ?_, ?_, ?_, ?_, ?_⟩
  · unfold saveWorkout
    split <;> simp
  · simp [queryWorkouts]
  · simp [getTotalDistance]
  · simp [getTotalCalories]
  · simp only [deleteWorkout]
    split
    · simp
    · split <;> simp
  · simp [getSteps, getQuantitySum]
  · simp only [getRestingHeartRate, getLatestQuantity]
    split <;> simp
  · simp [saveBodyFat, saveQuantitySample]
  · obtain ⟨o, calls, hok⟩ := getLatestBodyFat_isOk store
    rw [hok]
    simp


theorem queryWorkouts_mem (store : HKStore) (s e : ℚ) (lim : Option Nat)
    (l : List WorkoutOutput) (hl : (queryWorkouts store s e lim).1 = Except.ok l)
    (r : WorkoutOutput) (hr : r ∈ l) :
    ∃ w ∈ store.workouts, r = workoutToOutput w := by
  simp only [queryWorkouts, Except.ok.injEq] at hl
  rw [← hl] at hr
  have hr' : ∃ w ∈ (match lim with
      | none => sortDescBy (fun (w : WorkoutRec) => w.endDate)
          (store.workouts.filter (fun (w : WorkoutRec) => strictStartDateMatch s e w.startDate))
      | some n => (sortDescBy (fun (w : WorkoutRec) => w.endDate)
          (store.workouts.filter
            (fun (w : WorkoutRec) => strictStartDateMatch s e w.startDate))).take n),
      workoutToOutput w = r := List.mem_map.1 hr
  obtain ⟨w, hw, hrw⟩ := hr'
  refine ⟨w, ?_, hrw.symm⟩
  have hsorted : w ∈ sortDescBy (fun w => w.endDate)
      (store.workouts.filter (fun w => strictStartDateMatch s e w.startDate)) := by
    cases lim with
    | none => exact hw
    | some n => exact List.take_subset n _ hw
  have hfil := (mem_sortDescBy _ _ _).1 hsorted
  exact (List.mem_filter.1 hfil).1

/-- C4 counterexample: the id string "not-a-uuid" identifies no workout in
the empty store, yet deleteWorkout fails with missingRequiredData (the
invalid-id guard), not with the record-not-found error. -/
theorem deleteWorkout_malformed_id_not_recordNotFound :
    (deleteWorkout storeEmptyAvailable "not-a-uuid").1 =
      Except.error (HealthKitError.missingRequiredData "Invalid workout ID") ∧
    (deleteWorkout storeEmptyAvailable "not-a-uuid").1 ≠
      Except.error HealthKitError.workoutNotFound := by
  constructor <;> decide

/-- C4 amended: for every WELL-FORMED uuid string matching no stored
workout, deleteWorkout fails with workoutNotFound (a malformed id string
instead fails with missingRequiredData, as the counterexample shows); and
deleting a just-saved workout id succeeds, after which a query over any
range no longer returns that id. -/
theorem deleteWorkout_notFound_and_saved_roundTrip (store : HKStore) (id u : String)
    (sd ed du di ca : ℚ) (act : Option String) (qs qe : ℚ) (lim : Option Nat)
    (hid : isValidUUIDString id = true)
    (hnone : ∀ w ∈ store.workouts, uppercased w.uuid ≠ uppercased id)
    (hu : isValidUUIDString u = true) :
    deleteWorkout store id =
      (Except.error HealthKitError.workoutNotFound,
       [NativeCall.sampleQuery HKObjectType.workoutType]) ∧
    ∀ store1, (saveWorkout store
        { startDate := some sd, endDate := some ed, duration := some du,
          distance := some di, calories := some ca, activityType := act } u).1 =
        Except.ok (u, store1) →
      ∃ store2, (deleteWorkout store1 u).1 = Except.ok store2 ∧
        ∀ l, (queryWorkouts store2 qs qe lim).1 = Except.ok l →
          ∀ r ∈ l, r.id ≠ u := by
  constructor
  · have hm : store.workouts.filter
        (fun w => decide (uppercased w.uuid = uppercased id)) = [] := by
      rw [List.filter_eq_nil_iff]
      intro w hw
      simpa using hnone w hw
    simp only [deleteWorkout, hid, hm]
    rfl
  · intro store1 hsave
    simp only [saveWorkout, Except.ok.injEq, Prod.mk.injEq] at hsave
    obtain ⟨-, hstore1⟩ := hsave
    have hmem :
        ({ uuid := u, activityType := parseActivityType (act.getD "running"),
           startDate := sd, endDate := ed, duration := du,
           totalDistance := some di, totalEnergyBurned := some ca } : WorkoutRec) ∈
          store1.workouts.filter (fun w => decide (uppercased w.uuid = uppercased u)) := by
      rw [List.mem_filter]
      constructor
      · rw [← hstore1]
        simp
      · simp
    have hne : store1.workouts.filter
        (fun w => decide (uppercased w.uuid = uppercased u)) ≠ [] := by
      intro hcon
      rw [hcon] at hmem
      simp at hmem
    simp only [deleteWorkout, hu]
    cases hh : (store1.workouts.filter
        (fun w => decide (uppercased w.uuid = uppercased u))).head? with
    | none => exact absurd (List.head?_eq_none_iff.1 hh) hne
    | some w =>
      refine ⟨{ store1 with workouts := store1.workouts.filter (fun w => decide (¬ uppercased w.uuid = uppercased u)) }, by simp [hh], ?_⟩
      intro l hl r hr
      obtain ⟨w', hw', hrw⟩ := queryWorkouts_mem _ qs qe lim l hl r hr
      have hkeep : decide (¬ uppercased w'.uuid = uppercased u) = true :=
        (List.mem_filter.1 hw').2
      have hneq : ¬ uppercased w'.uuid = uppercased u := of_decide_eq_true hkeep
      intro hru
      apply hneq
      have hid' : r.id = w'.uuid := by
        rw [hrw]
        rfl
      rw [← hid', hru]

theorem deleteWorkout_notFound_and_saved_roundTrip_witness :
    (isValidUUIDString "11111111-1111-1111-1111-111111111111" = true ∧
     isValidUUIDString uuidSample = true) ∧
    deleteWorkout storeEmptyAvailable "11111111-1111-1111-1111-111111111111" =
      (Except.error HealthKitError.workoutNotFound,
       [NativeCall.sampleQuery HKObjectType.workoutType]) :=
  ⟨⟨by decide, by decide⟩,
   (deleteWorkout_notFound_and_saved_roundTrip storeEmptyAvailable
     "11111111-1111-1111-1111-111111111111" uuidSample 1000 4600 3600 5000 350
     (some "running") 0 100000 none (by decide) (by simp [storeEmptyAvailable])
     (by decide)).1⟩
